import Mathlib

/-!
Verification of the reversible-action core of `nix-installer`:
the `PlaceChannelConfiguration` composite action
(`src/action/common/place_channel_configuration.rs`) and the shell
self-test harness (`src/self_test.rs`).

External collaborators (the `CreateFile` primitive, `dirs::home_dir`,
the `which` PATH lookup, the process runner) are abstracted as
parameters; everything defined here is translated from the Rust source,
except where a doc comment says `Modelled from the spec:`.
-/

namespace NixInstaller

/-! ## Shell self-test harness (`src/self_test.rs`) -/

/-- The `Shell` enumeration from `self_test.rs`: `Sh`, `Bash`, `Fish`, `Zsh`. -/
inductive Shell where
  | Sh
  | Bash
  | Fish
  | Zsh
  deriving DecidableEq, Repr

/-- Model of `std::process::Output`: exit status plus captured stdout/stderr
bytes (bytes modelled as naturals). -/
structure Output where
  status : Int
  stdout : List Nat
  stderr : List Nat
  deriving DecidableEq, Repr

/-- Model of `std::time::SystemTimeError` (wraps a duration; the payload is
irrelevant to control flow, kept as an integer). -/
structure SystemTimeError where
  duration : Int
  deriving DecidableEq, Repr

/-- The `SelfTestError` enumeration from `self_test.rs`:
`ShellFailed` (non-zero exit, carrying the captured output),
`Command` (the interpreter could not be started; the `std::io::Error`
source is modelled by its message), and `SystemTime`. -/
inductive SelfTestError where
  | ShellFailed (shell : Shell) (command : String) (output : Output)
  | Command (shell : Shell) (command : String) (error : String)
  | SystemTime (e : SystemTimeError)
  deriving DecidableEq, Repr

/-- `Shell::all()`: the fixed catalog `[Sh, Bash, Fish, Zsh]`. -/
def Shell.all : List Shell :=
  [Shell.Sh, Shell.Bash, Shell.Fish, Shell.Zsh]

/-- `Shell::executable()`: the canonical executable name of each shell. -/
def Shell.executable : Shell → String
  | Shell.Sh => "sh"
  | Shell.Bash => "bash"
  | Shell.Fish => "fish"
  | Shell.Zsh => "zsh"

/-- `Shell::self_test()`: the per-shell probe. In the source this is a stub
whose body is exactly `Ok(())`. -/
def Shell.self_test (_shell : Shell) : Except SelfTestError Unit :=
  Except.ok ()

/-- `Shell::discover()`: walk the catalog in order and keep the shells whose
executable is found by the PATH lookup (`which`, abstracted as the
predicate `present`); a missing shell is skipped, never an error. -/
def Shell.discover (present : String → Bool) : List Shell :=
  Shell.all.filter (fun shell => present shell.executable)

/-- The body of the loop in the aggregate `self_test`:
`match shell.self_test().await { Ok(()) => (), Err(err) => failures.push(err) }`,
with the per-shell call abstracted as `run`. -/
def collectFailure (run : Shell → Except SelfTestError Unit)
    (acc : List SelfTestError) (shell : Shell) : List SelfTestError :=
  match run shell with
  | Except.ok _ => acc
  | Except.error e => acc ++ [e]

/-- The error-collecting loop of the aggregate `self_test`, abstracted over
the per-shell runner (`shell.self_test()` at the call site): run every
discovered shell, push each failure onto `failures`, and return the failure
list as an error iff it is non-empty. -/
def selfTestWith (present : String → Bool)
    (run : Shell → Except SelfTestError Unit) :
    Except (List SelfTestError) Unit :=
  let shells := Shell.discover present
  let failures := shells.foldl (collectFailure run) []
  if failures.isEmpty then Except.ok () else Except.error failures

/-- The aggregate `self_test` of `self_test.rs`: the collecting loop applied
to the per-shell `Shell::self_test`. -/
def self_test (present : String → Bool) : Except (List SelfTestError) Unit :=
  selfTestWith present Shell.self_test

/-- First error of an `Except`, as an `Option` (used to state what the
collecting loop gathers). -/
def errOf {ε α : Type} : Except ε α → Option ε
  | Except.error e => some e
  | Except.ok _ => none

/-! ## PlaceChannelConfiguration (`src/action/common/place_channel_configuration.rs`) -/

/-- Modelled from the spec: `ActionState` (defined outside the included
sources, in `crate::action`) is the enumeration
Uncompleted / Completed / Progress. -/
inductive ActionState where
  | Uncompleted
  | Completed
  | Progress
  deriving DecidableEq, Repr

/-- The argument tuple of the external `CreateFile::plan(path, user, group,
mode, buf, force)`. Paths are modelled as strings. -/
structure CreateFileParams where
  path : String
  user : Option String
  group : Option String
  mode : Nat
  buf : String
  force : Bool
  deriving DecidableEq, Repr

/-- `PlaceChannelConfigurationError` from the source: a `CreateFile` variant
wrapping the inner primitive's error as its `#[source]`, and `NoRootHome`.
The inner error type `CreateFileError` is external, kept as a parameter. -/
inductive PlaceChannelConfigurationError (ε : Type) where
  | CreateFile (source : ε)
  | NoRootHome
  deriving DecidableEq, Repr

/-- The `Box<dyn Error + Send + Sync>` channel of `plan`: it carries either a
boxed `PlaceChannelConfigurationError` (produced by `.boxed()`) or the inner
primitive's plan error propagated by `?` without any wrapping. -/
inductive PlanBoxed (ε : Type) where
  | boxed (e : PlaceChannelConfigurationError ε)
  | inner (e : ε)
  deriving DecidableEq, Repr

/-- The external collaborators `plan` consults: `dirs::home_dir()` and
`CreateFile::plan` (both outside the included sources), abstracted as data.
`κ` is the type of planned `CreateFile` instances, `ε` its plan error. -/
structure PlanEnv (ε κ : Type) where
  home_dir : Option String
  createFilePlan : CreateFileParams → Except ε κ

/-- The `PlaceChannelConfiguration` struct: channels (the `Url` is modelled
by its display serialization), the owned planned `CreateFile`, and the
composite's own `action_state`. -/
structure PlaceChannelConfiguration (κ : Type) where
  channels : List (String × String)
  create_file : κ
  action_state : ActionState
  deriving DecidableEq, Repr

/-- The serialization inside `plan`:
`channels.iter().map(|(name, url)| format!("{} {}", url, name))
.collect::<Vec<_>>().join("\n")`. -/
def serializeChannels (channels : List (String × String)) : String :=
  String.intercalate "\n" (channels.map fun c => c.2 ++ " " ++ c.1)

/-- `PlaceChannelConfiguration::plan`: serialize the channels, resolve the
home directory (failing with boxed `NoRootHome` if absent — the inner
primitive is never consulted in that case), then delegate to
`CreateFile::plan(home/.nix-channels, None, None, 0o664, buf, force)`,
propagating its error through `?`; on success the instance starts in
`Uncompleted`. (`PathBuf::join` with the relative `".nix-channels"` appends
a separator.) -/
def PlaceChannelConfiguration.plan {ε κ : Type} (env : PlanEnv ε κ)
    (channels : List (String × String)) (force : Bool) :
    Except (PlanBoxed ε) (PlaceChannelConfiguration κ) :=
  let buf := serializeChannels channels
  match env.home_dir with
  | none => Except.error (PlanBoxed.boxed PlaceChannelConfigurationError.NoRootHome)
  | some home =>
    match env.createFilePlan ⟨home ++ "/.nix-channels", none, none, 0o664, buf, force⟩ with
    | Except.error e => Except.error (PlanBoxed.inner e)
    | Except.ok cf => Except.ok ⟨channels, cf, ActionState.Uncompleted⟩

/-- The external runtime behaviour of the inner primitive during
execute/revert: `create_file.try_execute()` and `create_file.revert()`
mutate the primitive (`κ`) and the filesystem (`φ`) and possibly fail,
modelled as state transformers returning (error?, new primitive, new fs). -/
structure RunEnv (ε κ φ : Type) where
  tryExecute : κ → φ → Option ε × κ × φ
  revert : κ → φ → Option ε × κ × φ

/-- `PlaceChannelConfiguration::execute`: destructure `self` and call
`create_file.try_execute().await?` — nothing else; errors propagate by `?`
and the composite's other fields are untouched. -/
def PlaceChannelConfiguration.execute {ε κ φ : Type}
    (self : PlaceChannelConfiguration κ) (env : RunEnv ε κ φ) (fs : φ) :
    Option ε × PlaceChannelConfiguration κ × φ :=
  let r := env.tryExecute self.create_file fs
  (r.1, ⟨self.channels, r.2.1, self.action_state⟩, r.2.2)

/-- `PlaceChannelConfiguration::revert`: destructure `self` and call
`create_file.revert().await?` — nothing else. -/
def PlaceChannelConfiguration.revert {ε κ φ : Type}
    (self : PlaceChannelConfiguration κ) (env : RunEnv ε κ φ) (fs : φ) :
    Option ε × PlaceChannelConfiguration κ × φ :=
  let r := env.revert self.create_file fs
  (r.1, ⟨self.channels, r.2.1, self.action_state⟩, r.2.2)

/-- `PlaceChannelConfiguration::set_action_state`. -/
def PlaceChannelConfiguration.set_action_state {κ : Type}
    (self : PlaceChannelConfiguration κ) (a : ActionState) :
    PlaceChannelConfiguration κ :=
  ⟨self.channels, self.create_file, a⟩

/-- Modelled from the spec: the lifecycle driver around `execute` (the
`ActionImplementation::try_execute` wrapper lives outside the included
sources): "Side effect: ... on success, advances `action_state` to
Completed"; on failure the state is left as `execute` left it. -/
def lifecycleExecute {ε κ φ : Type} (env : RunEnv ε κ φ)
    (self : PlaceChannelConfiguration κ) (fs : φ) :
    Option ε × PlaceChannelConfiguration κ × φ :=
  let r := self.execute env fs
  match r.1 with
  | none => (none, r.2.1.set_action_state ActionState.Completed, r.2.2)
  | some e => (some e, r.2.1, r.2.2)

/-- Modelled from the spec: the lifecycle driver around `revert`:
"on success moves state back to Uncompleted". -/
def lifecycleRevert {ε κ φ : Type} (env : RunEnv ε κ φ)
    (self : PlaceChannelConfiguration κ) (fs : φ) :
    Option ε × PlaceChannelConfiguration κ × φ :=
  let r := self.revert env fs
  match r.1 with
  | none => (none, r.2.1.set_action_state ActionState.Uncompleted, r.2.2)
  | some e => (some e, r.2.1, r.2.2)

/-- Composite states reachable through the plan / execute / revert
lifecycle; `ε₂` is the plan-time error type of the inner primitive. Both
successful and failed executes/reverts are steps. -/
inductive Reachable {ε κ φ : Type} (ε₂ : Type) (env : RunEnv ε κ φ) :
    PlaceChannelConfiguration κ → φ → Prop where
  | planned (penv : PlanEnv ε₂ κ) (channels : List (String × String))
      (force : Bool) (s : PlaceChannelConfiguration κ) (fs : φ)
      (h : PlaceChannelConfiguration.plan penv channels force = Except.ok s) :
      Reachable ε₂ env s fs
  | execStep (s : PlaceChannelConfiguration κ) (fs : φ)
      (h : Reachable ε₂ env s fs) :
      Reachable ε₂ env (lifecycleExecute env s fs).2.1 (lifecycleExecute env s fs).2.2
  | revertStep (s : PlaceChannelConfiguration κ) (fs : φ)
      (h : Reachable ε₂ env s fs) :
      Reachable ε₂ env (lifecycleRevert env s fs).2.1 (lifecycleRevert env s fs).2.2

/-! ## Concrete environments used in theorems -/

/-- A plan environment whose home resolves and whose `CreateFile::plan`
simply records the parameters it was handed (so a theorem can state exactly
what the composite passed down). -/
def recordingPlanEnv (home : String) : PlanEnv Unit CreateFileParams :=
  ⟨some home, fun p => Except.ok p⟩

/-- A plan environment with no resolvable home directory. -/
def noHomeEnv : PlanEnv Unit CreateFileParams :=
  ⟨none, fun p => Except.ok p⟩

/-- A runtime environment whose primitive always succeeds and counts in the
filesystem component how often it was invoked. -/
def countingRunEnv : RunEnv Unit Unit Nat :=
  ⟨fun cf n => (none, cf, n + 1), fun cf n => (none, cf, n + 1)⟩

/-- A trivial always-succeeding runtime environment over recorded
`CreateFile` parameters. -/
def idRunEnv : RunEnv Unit CreateFileParams Unit :=
  ⟨fun cf u => (none, cf, u), fun cf u => (none, cf, u)⟩

/-! ## Helper lemmas -/

theorem intercalate_go_spec (s : String) (bs : List String) (acc b : String) :
    String.intercalate.go acc s (b :: bs) = acc ++ s ++ String.intercalate.go b s bs := by
  induction bs generalizing acc b with
  | nil => rfl
  | cons b2 bs ih =>
    have h1 : String.intercalate.go acc s (b :: b2 :: bs) =
        String.intercalate.go (acc ++ s ++ b) s (b2 :: bs) := rfl
    rw [h1, ih, ih b b2]
    simp [String.append_assoc]

theorem serializeChannels_cons (c c2 : String × String) (rest : List (String × String)) :
    serializeChannels (c :: c2 :: rest) =
      (c.2 ++ " " ++ c.1) ++ "\n" ++ serializeChannels (c2 :: rest) := by
  simp only [serializeChannels, List.map_cons, String.intercalate]
  rw [intercalate_go_spec]

theorem foldl_collect_errors (run : Shell → Except SelfTestError Unit)
    (l : List Shell) (acc : List SelfTestError) :
    l.foldl (collectFailure run) acc
      = acc ++ l.filterMap (fun a => errOf (run a)) := by
  induction l generalizing acc with
  | nil => simp
  | cons a l ih =>
    simp only [List.foldl_cons, List.filterMap_cons]
    cases h : run a with
    | ok v => simp [collectFailure, h, errOf, ih]
    | error e => simp [collectFailure, h, errOf, ih]

/-! ## Claim theorems -/

/-- C1: `PlaceChannelConfiguration::plan` serializes the channel list
deterministically as one `"<url> <name>"` line per entry, lines joined by a
single newline with no trailing content, in the caller-supplied order; the
two-channel example yields exactly
`"https://example/nixpkgs nixpkgs\nhttps://example/nixos nixos"`. -/
theorem plan_serializes_channels (c c2 : String × String)
    (rest : List (String × String)) :
    serializeChannels [] = "" ∧
    serializeChannels [c] = c.2 ++ " " ++ c.1 ∧
    serializeChannels (c :: c2 :: rest) =
      (c.2 ++ " " ++ c.1) ++ "\n" ++ serializeChannels (c2 :: rest) ∧
    PlaceChannelConfiguration.plan (recordingPlanEnv "/root")
        [("nixpkgs", "https://example/nixpkgs"), ("nixos", "https://example/nixos")]
        false =
      Except.ok
        ⟨[("nixpkgs", "https://example/nixpkgs"), ("nixos", "https://example/nixos")],
          ⟨"/root/.nix-channels", none, none, 0o664,
            "https://example/nixpkgs nixpkgs\nhttps://example/nixos nixos", false⟩,
          ActionState.Uncompleted⟩ :=
  ⟨rfl, rfl, serializeChannels_cons c c2 rest, rfl⟩

/-- C4: when the home directory does not resolve, `plan` fails with the
boxed `NoRootHome` error; the result is this error for every possible inner
`CreateFile::plan`, i.e. the inner primitive is never consulted and nothing
is mutated. -/
theorem plan_no_home_fails_fast (ε κ : Type) (env : PlanEnv ε κ)
    (channels : List (String × String)) (force : Bool)
    (h : env.home_dir = none) :
    PlaceChannelConfiguration.plan env channels force =
      Except.error (PlanBoxed.boxed PlaceChannelConfigurationError.NoRootHome) := by
  simp [PlaceChannelConfiguration.plan, h]

/-- C4 witness: the no-home environment at a concrete channel list. -/
theorem plan_no_home_fails_fast_witness :
    PlaceChannelConfiguration.plan noHomeEnv
        [("nixpkgs", "https://example/nixpkgs")] false =
      Except.error (PlanBoxed.boxed PlaceChannelConfigurationError.NoRootHome) :=
  plan_no_home_fails_fast Unit CreateFileParams noHomeEnv
    [("nixpkgs", "https://example/nixpkgs")] false rfl

/-- C5 counterexample: with a resolvable home and an inner `CreateFile::plan`
failing with error `7`, `plan` returns the inner error propagated by `?`
un-wrapped — not the composite's `CreateFile` variant. -/
theorem plan_inner_error_not_wrapped_counterexample :
    PlaceChannelConfiguration.plan
        (⟨some "/root", fun _ => Except.error 7⟩ : PlanEnv Nat CreateFileParams)
        [("nixpkgs", "https://example/nixpkgs")] false =
      Except.error (PlanBoxed.inner 7) ∧
    PlaceChannelConfiguration.plan
        (⟨some "/root", fun _ => Except.error 7⟩ : PlanEnv Nat CreateFileParams)
        [("nixpkgs", "https://example/nixpkgs")] false ≠
      Except.error (PlanBoxed.boxed (PlaceChannelConfigurationError.CreateFile 7)) := by
  refine ⟨rfl, fun h => ?_⟩
  exact PlanBoxed.noConfusion (Except.error.inj h)

/-- C5 amended: any failure of the inner primitive's `plan` surfaces as the
composite's planning failure unchanged (merely carried in the boxed error
channel); `plan` never constructs the `CreateFile` wrapper variant. -/
theorem plan_propagates_inner_error (ε κ : Type) (home : String) (e : ε)
    (channels : List (String × String)) (force : Bool) :
    PlaceChannelConfiguration.plan
        (⟨some home, fun _ => Except.error e⟩ : PlanEnv ε κ) channels force =
      Except.error (PlanBoxed.inner e) := rfl

/-- C8: with the home directory resolving to `home`, `plan` hands the inner
primitive exactly the path `home ++ "/.nix-channels"`, no owner, no group,
mode `0o664`, the serialized content, and the caller's force flag, and the
planned composite holds the channels and starts Uncompleted. -/
theorem plan_delegates_exact_params (home : String)
    (channels : List (String × String)) (force : Bool) :
    PlaceChannelConfiguration.plan (recordingPlanEnv home) channels force =
      Except.ok
        ⟨channels,
          ⟨home ++ "/.nix-channels", none, none, 0o664,
            serializeChannels channels, force⟩,
          ActionState.Uncompleted⟩ := rfl

/-- The per-probe failure used in the fixed-host scenario: zsh exits
non-zero. -/
def scenarioZshFailure : SelfTestError :=
  SelfTestError.ShellFailed Shell.Zsh "true" ⟨1, [], []⟩

/-- C2: the aggregate self-test discovers the present shells, runs the
per-shell test on each without stopping at the first failure, accumulates
every failure in discovery order (a success contributes nothing and blocks
nothing), and errors out exactly when the accumulated list is non-empty;
with the source's per-shell stub the aggregate always succeeds, and in the
fixed scenario (bash and zsh present, bash succeeding, zsh failing) the
result is exactly the one-element zsh failure list. -/
theorem self_test_collects_all_failures (present : String → Bool)
    (run : Shell → Except SelfTestError Unit) :
    selfTestWith present run =
      (let failures := (Shell.discover present).filterMap (fun s => errOf (run s))
       if failures.isEmpty then Except.ok () else Except.error failures) ∧
    self_test present = Except.ok () ∧
    Shell.discover (fun e => e == "bash" || e == "zsh") = [Shell.Bash, Shell.Zsh] ∧
    selfTestWith (fun e => e == "bash" || e == "zsh")
        (fun s =>
          match s with
          | Shell.Zsh => Except.error scenarioZshFailure
          | _ => Except.ok ()) =
      Except.error [scenarioZshFailure] := by
  refine ⟨?_, ?_, rfl, rfl⟩
  · simp only [selfTestWith]
    rw [foldl_collect_errors run (Shell.discover present) []]
    simp
  · simp only [self_test, selfTestWith]
    rw [foldl_collect_errors Shell.self_test (Shell.discover present) []]
    simp [Shell.self_test, errOf]

/-- C6 counterexample: the per-shell `Shell::self_test` is a stub returning
success for every shell unconditionally; in particular it cannot return the
non-zero-exit failure even for a broken interpreter, contradicting the
claimed run-and-classify behaviour. -/
theorem shell_self_test_stub_counterexample :
    Shell.self_test Shell.Sh = Except.ok () ∧
    Shell.self_test Shell.Bash = Except.ok () ∧
    Shell.self_test Shell.Fish = Except.ok () ∧
    Shell.self_test Shell.Zsh = Except.ok () ∧
    Shell.self_test Shell.Zsh ≠ Except.error scenarioZshFailure :=
  ⟨rfl, rfl, rfl, rfl, fun h => Except.noConfusion h⟩

/-- C6 amended: the per-shell self-test always succeeds without running any
command (a source stub); the `SelfTestError` type nonetheless classifies a
failure as exactly one of non-zero exit with captured output, invocation
failure, or system-clock error. -/
theorem shell_self_test_classification (shell : Shell) (e : SelfTestError) :
    Shell.self_test shell = Except.ok () ∧
    ((∃ sh cmd out, e = SelfTestError.ShellFailed sh cmd out) ∨
     (∃ sh cmd msg, e = SelfTestError.Command sh cmd msg) ∨
     (∃ t, e = SelfTestError.SystemTime t)) := by
  refine ⟨rfl, ?_⟩
  cases e with
  | ShellFailed sh cmd out => exact Or.inl ⟨sh, cmd, out, rfl⟩
  | Command sh cmd msg => exact Or.inr (Or.inl ⟨sh, cmd, msg, rfl⟩)
  | SystemTime t => exact Or.inr (Or.inr ⟨t, rfl⟩)

/-- C7: the catalog is the fixed sequence [Sh, Bash, Fish, Zsh] with
canonical executables "sh", "bash", "fish", "zsh"; `discover` returns the
subsequence (catalog order) of shells whose executable the PATH lookup
finds, a shell is in the result iff its executable is present (absence is
silently skipped, never an error), and on a host with only bash and zsh the
result is [Bash, Zsh]. -/
theorem shell_catalog_and_discover (present : String → Bool) (s : Shell) :
    Shell.all = [Shell.Sh, Shell.Bash, Shell.Fish, Shell.Zsh] ∧
    Shell.Sh.executable = "sh" ∧ Shell.Bash.executable = "bash" ∧
    Shell.Fish.executable = "fish" ∧ Shell.Zsh.executable = "zsh" ∧
    List.Sublist (Shell.discover present) Shell.all ∧
    (s ∈ Shell.discover present ↔ present s.executable = true) ∧
    Shell.discover (fun e => e == "bash" || e == "zsh") = [Shell.Bash, Shell.Zsh] := by
  refine ⟨rfl, rfl, rfl, rfl, rfl, List.filter_sublist _, ?_, rfl⟩
  constructor
  · intro h
    exact (List.mem_filter.mp h).2
  · intro h
    exact List.mem_filter.mpr ⟨by cases s <;> decide, h⟩

/-- C9: `execute` and `revert` of the composite delegate entirely to the
inner primitive: the error outcome, the filesystem effect and the updated
primitive state are exactly those of one invocation of
`create_file.try_execute` / `create_file.revert` (no translation, no
retry); under a counting environment each call invokes the primitive
exactly once. -/
theorem execute_revert_delegate (ε κ φ : Type) (env : RunEnv ε κ φ)
    (self : PlaceChannelConfiguration κ) (fs : φ) :
    (self.execute env fs).1 = (env.tryExecute self.create_file fs).1 ∧
    (self.execute env fs).2.2 = (env.tryExecute self.create_file fs).2.2 ∧
    (self.execute env fs).2.1.create_file = (env.tryExecute self.create_file fs).2.1 ∧
    (self.revert env fs).1 = (env.revert self.create_file fs).1 ∧
    (self.revert env fs).2.2 = (env.revert self.create_file fs).2.2 ∧
    (self.revert env fs).2.1.create_file = (env.revert self.create_file fs).2.1 ∧
    (PlaceChannelConfiguration.execute ⟨[], (), ActionState.Uncompleted⟩ countingRunEnv 0).2.2 = 1 ∧
    (PlaceChannelConfiguration.revert ⟨[], (), ActionState.Uncompleted⟩ countingRunEnv 0).2.2 = 1 :=
  ⟨rfl, rfl, rfl, rfl, rfl, rfl, rfl, rfl⟩

/-- C10: whatever the primitive does (success or failure), `execute` and
`revert` leave the composite's own `channels` and `action_state` fields
untouched; `set_action_state` changes only `action_state`. -/
theorem execute_revert_frame (ε κ φ : Type) (env : RunEnv ε κ φ)
    (self : PlaceChannelConfiguration κ) (fs : φ) (a : ActionState) :
    (self.execute env fs).2.1.channels = self.channels ∧
    (self.execute env fs).2.1.action_state = self.action_state ∧
    (self.revert env fs).2.1.channels = self.channels ∧
    (self.revert env fs).2.1.action_state = self.action_state ∧
    (self.set_action_state a).action_state = a ∧
    (self.set_action_state a).channels = self.channels ∧
    (self.set_action_state a).create_file = self.create_file :=
  ⟨rfl, rfl, rfl, rfl, rfl, rfl, rfl⟩

/-- C3: a freshly planned composite is `Uncompleted`; a successful
lifecycle execute leaves it `Completed`; a successful lifecycle revert
leaves it `Uncompleted`; and every state reachable through the
plan / execute / revert lifecycle is one of these two — `Progress` never
arises. -/
theorem place_channel_configuration_state_machine (ε ε₂ κ φ : Type)
    (env : RunEnv ε κ φ) :
    (∀ (penv : PlanEnv ε₂ κ) (channels : List (String × String)) (force : Bool)
        (s : PlaceChannelConfiguration κ),
        PlaceChannelConfiguration.plan penv channels force = Except.ok s →
        s.action_state = ActionState.Uncompleted) ∧
    (∀ (s : PlaceChannelConfiguration κ) (fs : φ),
        (lifecycleExecute env s fs).1 = none →
        ((lifecycleExecute env s fs).2.1).action_state = ActionState.Completed) ∧
    (∀ (s : PlaceChannelConfiguration κ) (fs : φ),
        (lifecycleRevert env s fs).1 = none →
        ((lifecycleRevert env s fs).2.1).action_state = ActionState.Uncompleted) ∧
    (∀ (s : PlaceChannelConfiguration κ) (fs : φ), Reachable ε₂ env s fs →
        s.action_state = ActionState.Uncompleted ∨
        s.action_state = ActionState.Completed) := by
  have hplan : ∀ (penv : PlanEnv ε₂ κ) (channels : List (String × String))
      (force : Bool) (s : PlaceChannelConfiguration κ),
      PlaceChannelConfiguration.plan penv channels force = Except.ok s →
      s.action_state = ActionState.Uncompleted := by
    intro penv channels force s h
    simp only [PlaceChannelConfiguration.plan] at h
    split at h
    · exact Except.noConfusion h
    · split at h
      · exact Except.noConfusion h
      · injection h with h2
        subst h2
        rfl
  have hexec : ∀ (s : PlaceChannelConfiguration κ) (fs : φ),
      (lifecycleExecute env s fs).1 = none →
      ((lifecycleExecute env s fs).2.1).action_state = ActionState.Completed := by
    intro s fs h
    simp only [lifecycleExecute] at h ⊢
    split at h
    · simp_all [PlaceChannelConfiguration.set_action_state]
    · exact Option.noConfusion h
  have hrevert : ∀ (s : PlaceChannelConfiguration κ) (fs : φ),
      (lifecycleRevert env s fs).1 = none →
      ((lifecycleRevert env s fs).2.1).action_state = ActionState.Uncompleted := by
    intro s fs h
    simp only [lifecycleRevert] at h ⊢
    split at h
    · simp_all [PlaceChannelConfiguration.set_action_state]
    · exact Option.noConfusion h
  refine ⟨hplan, hexec, hrevert, ?_⟩
  intro s fs hreach
  induction hreach with
  | planned penv channels force s fs h =>
    exact Or.inl (hplan penv channels force s h)
  | execStep s fs h ih =>
    simp only [lifecycleExecute]
    split
    · exact Or.inr rfl
    · exact ih
  | revertStep s fs h ih =>
    simp only [lifecycleRevert]
    split
    · exact Or.inl rfl
    · exact ih

/-- C3 witness: a concretely planned composite, reached through
`Reachable.planned`, has a state in the two-element set (it is in fact
`Uncompleted`). -/
theorem place_channel_configuration_state_machine_witness :
    (PlaceChannelConfiguration.mk [("nixpkgs", "https://example/nixpkgs")]
        (CreateFileParams.mk "/root/.nix-channels" none none 436
          "https://example/nixpkgs nixpkgs" false)
        ActionState.Uncompleted).action_state = ActionState.Uncompleted ∨
    (PlaceChannelConfiguration.mk [("nixpkgs", "https://example/nixpkgs")]
        (CreateFileParams.mk "/root/.nix-channels" none none 436
          "https://example/nixpkgs nixpkgs" false)
        ActionState.Uncompleted).action_state = ActionState.Completed :=
  (place_channel_configuration_state_machine Unit Unit CreateFileParams Unit
      idRunEnv).2.2.2 _ ()
    (Reachable.planned (recordingPlanEnv "/root")
      [("nixpkgs", "https://example/nixpkgs")] false _ () rfl)

end NixInstaller
